import Mathlib

/-!
Verification development for the `pyvantage` Vantage-controller client
(`src/pyvantage/__init__.py`).  The definitions below are a shallow
embedding of the parts of the source that the properties concern:

* the level/kelvin conversion helpers (`kelvin_to_level`, `level_to_kelvin`),
* the `_RequestHelper` request/notify primitive,
* the per-entity `handle_update` state machines (`Output`, `Button`,
  `Keypad`, `Variable`, `Shade`, sensors, `Task`),
* the dispatch entry point `Vantage._recv` together with
  `Vantage.handle_update_and_notify`,
* `Vantage.register_id` and `Vantage.set_variable_vid`.

Python floats are modelled as rationals (`ℚ`); Python exceptions are
modelled with `Except`.  Python's `float(...)` / `int(...)` string
conversions are modelled by executable decimal parsers that succeed
exactly on (signed) decimal literals and fail otherwise.
-/

namespace Pyvantage

/-! ### String / token helpers -/

/-- Value of a list of decimal digit characters (most significant first). -/
def digitsToNat (l : List Char) : Nat :=
  l.foldl (fun a c => a * 10 + (c.toNat - 48)) 0

/-- `int(s)` for a digit string; used where the source already checked
`str.isdigit`. -/
def strToNat (s : String) : Nat := digitsToNat s.toList

/-- Model of Python `str.isdigit()`: nonempty and all decimal digits. -/
def pyIsDigit (s : String) : Bool :=
  !s.toList.isEmpty && s.toList.all Char.isDigit

/-- Splitter used to model `re.split(r'[ :]', line[2:])`: splits at every
single occurrence of the separator, keeping empty pieces (the behaviour of
`re.split` on a one-character class). -/
def splitToksAux (p : Char → Bool) : List Char → List Char → List String
  | [], acc => [acc.reverse.asString]
  | c :: cs, acc =>
      if p c then acc.reverse.asString :: splitToksAux p cs []
      else splitToksAux p cs (c :: acc)

/-- Split a character list on separators satisfying `p`
(model of `re.split` on a single-character class). -/
def splitToks (p : Char → Bool) (cs : List Char) : List String :=
  splitToksAux p cs []

/-- Model of Python `float(s)` restricted to plain decimal literals:
optional sign, an integer part and an optional fractional part, with at
least one digit overall.  Returns `none` where `float(...)` raises
`ValueError` (e.g. on `"abc"`, `""`, `"."`). -/
def pyFloat (s : String) : Option ℚ :=
  let cs := s.toList
  let signBody : ℚ × List Char :=
    match cs with
    | '-' :: rest => (-1, rest)
    | '+' :: rest => (1, rest)
    | _ => (1, cs)
  let sign := signBody.1
  let body := signBody.2
  let intPart := body.takeWhile Char.isDigit
  let rest := body.dropWhile Char.isDigit
  match rest with
  | [] =>
      if intPart.isEmpty then none
      else some (sign * (digitsToNat intPart : ℚ))
  | '.' :: frac =>
      if frac.all Char.isDigit && !(intPart.isEmpty && frac.isEmpty) then
        some (sign * ((digitsToNat intPart : ℚ) +
          (digitsToNat frac : ℚ) / ((10 : ℚ) ^ frac.length)))
      else none
  | _ => none

/-- Model of Python `int(s)` restricted to signed decimal integer
literals; `none` where `int(...)` raises `ValueError`. -/
def pyIntStr (s : String) : Option Int :=
  let cs := s.toList
  let signBody : Int × List Char :=
    match cs with
    | '-' :: rest => (-1, rest)
    | '+' :: rest => (1, rest)
    | _ => (1, cs)
  if signBody.2.isEmpty || !signBody.2.all Char.isDigit then none
  else some (signBody.1 * (digitsToNat signBody.2 : Int))

/-- A Python value passed in an argument list to `handle_update`.
Wire tokens are strings; `Button.handle_update` forwards the button
number (an `int`) to its keypad, so argument lists are heterogeneous. -/
inductive Arg where
  | str (s : String)
  | int (n : Int)
  deriving DecidableEq, Repr

/-- `float(a)` on an argument value. -/
def argFloat (a : Arg) : Option ℚ :=
  match a with
  | .str s => pyFloat s
  | .int n => some (n : ℚ)

/-- `int(a)` on an argument value. -/
def argInt (a : Arg) : Option Int :=
  match a with
  | .str s => pyIntStr s
  | .int n => some n

/-! ### Kelvin/level conversions (source lines 51-66) -/

/-- `kelvin_to_level(kelvin)` from the source: convert kelvin temperature
to a USAI level. -/
def kelvin_to_level (kelvin : ℚ) : ℚ :=
  if kelvin < 2200 then 0
  else if kelvin > 6000 then 100
  else (kelvin - 2200) / (6000 - 2200) * 100

/-- `level_to_kelvin(level)` from the source: convert a level to a kelvin
temperature. -/
def level_to_kelvin (level : ℚ) : ℚ :=
  if level < 0 then 2200
  else if level > 100 then 6000
  else (6000 - 2200) * level / 100 + 2200

/-- Clamp `x` into `[lo, hi]` (used to state the spec's formula
`2200 + L/100*(6000-2200)` clamped to `[2200, 6000]`). -/
def clampQ (lo hi x : ℚ) : ℚ := max lo (min hi x)

/-! ### Python exceptions and small dict helpers -/

/-- The Python exceptions that can escape the modelled code paths. -/
inductive PyErr where
  | valueError
  | indexError
  deriving DecidableEq, Repr

/-- Association-list lookup, modelling Python `dict.get` /
`key in dict` / `dict[key]` on the dictionaries of the source. -/
def alookup {α β : Type} [DecidableEq α] (k : α) : List (α × β) → Option β
  | [] => none
  | (k2, v) :: rest => if k = k2 then some v else alookup k rest

/-- Association-list store, modelling Python `dict[key] = value`. -/
def aupdate {α β : Type} [DecidableEq α] (k : α) (v : β) :
    List (α × β) → List (α × β)
  | [] => [(k, v)]
  | (k2, v2) :: rest =>
      if k = k2 then (k, v) :: rest else (k2, v2) :: aupdate k v rest

/-- `args[i]`, raising `IndexError` past the end as in Python. -/
def pyIndex (args : List Arg) (i : Nat) : Except PyErr Arg :=
  match args.get? i with
  | some a => .ok a
  | none => .error .indexError

/-- `float(a)`, raising `ValueError` on a non-numeric token. -/
def pyFloatE (a : Arg) : Except PyErr ℚ :=
  match argFloat a with
  | some q => .ok q
  | none => .error .valueError

/-- `int(a)`, raising `ValueError` on a non-integer token. -/
def pyIntE (a : Arg) : Except PyErr Int :=
  match argInt a with
  | some n => .ok n
  | none => .error .valueError

/-! ### Entity state (the mutable fields of the source classes that the
modelled code paths read or write) -/

/-- Mutable state of an `Output` (load) entity. -/
structure OutputState where
  vid : Nat
  output_type : String
  load_type : String
  level : ℚ
  color_temp : ℚ
  rgb : List Int
  color_control_vid : Option Nat
  dmx_color : Bool
  ramp_sec : List ℚ
  deriving DecidableEq, Repr

/-- Mutable state of a `Button` entity.  `keypad` is the VID of the
parent `Keypad` object held in `self._keypad`, `none` for a dry contact. -/
structure ButtonState where
  vid : Nat
  num : Nat
  name : String
  keypad : Option Nat
  value : Option Arg
  deriving DecidableEq, Repr

/-- Mutable state of a `Keypad` entity; `extra_info` models the
`self._extra_info` dict. -/
structure KeypadState where
  vid : Nat
  value : Option Arg
  extra_info : List (String × Arg)
  deriving DecidableEq, Repr

/-- Mutable state of a `Variable` entity. -/
structure VariableState where
  vid : Nat
  value : Option ℚ
  deriving DecidableEq, Repr

/-- Mutable state of a `Shade` entity (`_level` starts at 100 and the
`STOP` token sets it to `None`, hence `Option ℚ`). -/
structure ShadeState where
  vid : Nat
  level : Option ℚ
  deriving DecidableEq, Repr

/-- Mutable state of a `PollingSensor` (`OmniSensor` / `LightSensor`). -/
structure SensorState where
  vid : Nat
  value : Option ℚ
  deriving DecidableEq, Repr

/-- State of a `Task` entity (its `handle_update` only parses and logs). -/
structure TaskState where
  vid : Nat
  deriving DecidableEq, Repr

/-- The tagged union of entity kinds reachable from the dispatcher. -/
inductive Entity where
  | output (o : OutputState)
  | button (b : ButtonState)
  | keypad (k : KeypadState)
  | var (v : VariableState)
  | shade (s : ShadeState)
  | sensor (s : SensorState)
  | task (t : TaskState)
  deriving DecidableEq, Repr

/-- The state of a `Vantage` controller object.
`ids` is `self._ids` (command-type → set of registered VIDs; the keys are
`Option String` because `register_id` inserts the key `None` when called
with `cmd_type2=None`); the objects themselves live in `store`, keyed by
VID.  `vid_to_load` is the key set of `self._vid_to_load`,
`subscribers` the key set of `self._subscribers`, `cmds` the pending
command deque `self._cmds`. -/
structure VState where
  cmds : List String
  ids : List (Option String × List Nat)
  store : List (Nat × Entity)
  vid_to_load : List Nat
  subscribers : List Nat
  deriving DecidableEq, Repr

/-- Observable effects of processing one line: `invoked` lists the VIDs
whose `handle_update` was entered (via `handle_update_and_notify`),
`notified` the VIDs delivered to subscriber callbacks, `waiters` the
VIDs whose `_query_waiters.notify()` ran. -/
structure Effects where
  invoked : List Nat
  notified : List Nat
  waiters : List Nat
  deriving DecidableEq, Repr

/-- No effects. -/
def Effects.nil : Effects := ⟨[], [], []⟩

/-! ### Entity transition functions (`handle_update` of each class) -/

/-- `Variable.handle_update` (source lines 1277-1287):
`self._value = float(args[0]); return self`. -/
def variableHandleUpdate (v : VariableState) (args : List Arg) :
    Except PyErr (VariableState × Option Nat) := do
  let a ← pyIndex args 0
  let q ← pyFloatE a
  .ok ({ v with value := some q }, some v.vid)

/-- `PollingSensor.handle_update` (source lines 1744-1754). -/
def sensorHandleUpdate (s : SensorState) (args : List Arg) :
    Except PyErr (SensorState × Option Nat) := do
  let a ← pyIndex args 0
  let q ← pyFloatE a
  .ok ({ s with value := some q }, some s.vid)

/-- `Shade.handle_update` (source lines 1864-1884): `OPEN`→100,
`CLOSE`→0, `STOP`→`None`, `POS`→`float(args[1])`, otherwise
`float(value)`. -/
def shadeHandleUpdate (s : ShadeState) (args : List Arg) :
    Except PyErr (ShadeState × Option Nat) := do
  let a ← pyIndex args 0
  let value ←
    if a = .str "OPEN" then Except.ok (some (100 : ℚ))
    else if a = .str "CLOSE" then Except.ok (some (0 : ℚ))
    else if a = .str "STOP" then Except.ok (none : Option ℚ)
    else if a = .str "POS" then do
      let b ← pyIndex args 1
      let q ← pyFloatE b
      Except.ok (some q)
    else do
      let q ← pyFloatE a
      Except.ok (some q)
  .ok ({ s with level := value }, some s.vid)

/-- `Task.handle_update` (source lines 1701-1712): parses
`int(args[0])`, `int(args[1])` and the trailing integer list, logs,
and returns `self` without changing state. -/
def taskHandleUpdate (t : TaskState) (args : List Arg) :
    Except PyErr (TaskState × Option Nat) := do
  let a ← pyIndex args 0
  let _component ← pyIntE a
  let b ← pyIndex args 1
  let _action ← pyIntE b
  let _params ← (args.drop 2).mapM pyIntE
  .ok (t, some t.vid)

/-- `Keypad.handle_update` (source lines 1672-1682):
`self._value = args[0]`, then `extra_info` gets
`button_name = args[1]` and `button_action = args[2]`. -/
def keypadHandleUpdate (k : KeypadState) (args : List Arg) :
    Except PyErr (KeypadState × Option Nat) := do
  let v ← pyIndex args 0
  let n ← pyIndex args 1
  let a ← pyIndex args 2
  let k2 := { k with
    value := some v
    extra_info := [("button_name", n), ("button_action", a)] }
  .ok (k2, some k.vid)

/-- The lookup `self._vantage._vid_to_load.get(self._color_control_vid)`
performed by `Output.handle_update` for a COLOR output: the VID must be
a key of `_vid_to_load` and the stored object is the load. -/
def lightLookup (st : VState) (ccv : Option Nat) :
    Option (Nat × OutputState) :=
  match ccv with
  | none => none
  | some v =>
      if v ∈ st.vid_to_load then
        match alookup v st.store with
        | some (.output lo) => some (v, lo)
        | _ => none
      else none

/-- `Output.handle_update` (source lines 1352-1389).  Returns the new
controller state, the VIDs whose `_query_waiters.notify()` ran, and the
VID of the returned (handled) entity.  A single numeric argument is a
level: for a COLOR output it is converted with `level_to_kelvin` and
written to the *associated load* when one is found (returning that
load), otherwise the method warns and returns `self`; for any other
output it is stored as `self._level`.  A multi-argument
`RGBLoad.GetRGB` update writes one RGB channel (Python list indexing,
including negative indices) and releases the waiters on channel 2. -/
def outputHandleUpdate (st : VState) (o : OutputState) (args : List Arg) :
    Except PyErr (VState × List Nat × Option Nat) :=
  match args with
  | [a] => do
      let level ← pyFloatE a
      if o.output_type = "COLOR" then
        let color_temp := level_to_kelvin level
        match lightLookup st o.color_control_vid with
        | some (ccv, lo) =>
            let store2 :=
              aupdate ccv (.output { lo with color_temp := color_temp }) st.store
            .ok ({ st with store := store2 }, [ccv], some ccv)
        | none => .ok (st, [], some o.vid)
      else
        let store2 := aupdate o.vid (.output { o with level := level }) st.store
        .ok ({ st with store := store2 }, [o.vid], some o.vid)
  | [] => .error .indexError
  | a :: rest => do
      if a = .str "RGBLoad.GetRGB" then
        let v ← pyIndex (a :: rest) 1
        let val ← pyIntE v
        let c ← pyIndex (a :: rest) 2
        let char ← pyIntE c
        let o2 ←
          if char < 3 then
            if 0 ≤ char then
              Except.ok { o with rgb := o.rgb.set char.toNat val }
            else if 0 ≤ char + 3 then
              Except.ok { o with rgb := o.rgb.set (char + 3).toNat val }
            else (.error .indexError : Except PyErr OutputState)
          else Except.ok o
        let w := if char = 2 then [o.vid] else []
        let store2 := aupdate o.vid (.output o2) st.store
        .ok ({ st with store := store2 }, w, some o.vid)
      else
        .ok (st, [], some o.vid)

/-- `Output.level` setter (source lines 1423-1434): no-op when equal,
otherwise sends `RAMPLOAD` with the up/down ramp time and stores the
new level unclamped.  The second component records the sent command as
`(op, vid, numeric arguments)`. -/
def outputSetLevel (o : OutputState) (new_level : ℚ) :
    OutputState × List (String × Nat × List ℚ) :=
  if o.level = new_level then (o, [])
  else
    let ramp_sec := if new_level = 0 then o.ramp_sec.getD 1 0
                    else o.ramp_sec.getD 0 0
    ({ o with level := new_level },
     [("RAMPLOAD", o.vid, [new_level, ramp_sec])])

/-- Replace the object store of a controller state (used to state
expected post-states compactly). -/
def withStore (st : VState) (s : List (Nat × Entity)) : VState :=
  { st with store := s }

/-- An output with its `_color_temp` replaced. -/
def withColorTemp (o : OutputState) (ct : ℚ) : OutputState :=
  { o with color_temp := ct }

/-- An output with its `_level` replaced. -/
def withLevel (o : OutputState) (l : ℚ) : OutputState :=
  { o with level := l }

/-- `Vantage.handle_update_and_notify` (source lines 854-859) as invoked
from `Button.handle_update` on `self._keypad`.  A button's `_keypad`
reference is always a `Keypad` object (set by the XML parser), so the
dynamic dispatch is stratified here to the keypad case; any other
content at that VID is unreachable and treated as the base-class no-op. -/
def notifyKeypad (st : VState) (kvid : Nat) (args : List Arg) :
    Except PyErr (VState × Effects) :=
  match alookup kvid st.store with
  | some (.keypad k) => do
      let (k2, handled) ← keypadHandleUpdate k args
      let st2 := { st with store := aupdate k.vid (.keypad k2) st.store }
      let eff : Effects := ⟨[kvid], [], []⟩
      match handled with
      | some hv =>
          if hv ∈ st2.subscribers then
            .ok (st2, { eff with notified := [hv] })
          else .ok (st2, eff)
      | none => .ok (st2, eff)
  | _ => .ok (st, Effects.nil)

/-- The dry-contact action remapping of `Button.handle_update`
(source lines 1598-1606): `PRESS`→`Violated`, `RELEASE`→`Normal`,
any other token unchanged. -/
def dryContactValue (action : Arg) : Arg :=
  if action = .str "PRESS" then .str "Violated"
  else if action = .str "RELEASE" then .str "Normal"
  else action

/-- `Button.handle_update` (source lines 1582-1608).  With a keypad
parent: store the action as the button's value, forward
`[self._num, self._name, self._value]` to the keypad through
`handle_update_and_notify`, and return `self`.  Without one (a dry
contact): remap the action with `dryContactValue` and return `self`. -/
def buttonHandleUpdate (st : VState) (b : ButtonState) (args : List Arg) :
    Except PyErr (VState × Effects × Option Nat) := do
  let action ← pyIndex args 0
  match b.keypad with
  | some kvid =>
      let b2 := { b with value := some action }
      let st2 := { st with store := aupdate b.vid (.button b2) st.store }
      let res ← notifyKeypad st2 kvid [.int (b.num : Int), .str b.name, action]
      .ok (res.1, res.2, some b.vid)
  | none =>
      let b2 := { b with value := some (dryContactValue action) }
      let st2 := { st with store := aupdate b.vid (.button b2) st.store }
      .ok (st2, Effects.nil, some b.vid)

/-- Dynamic dispatch of `obj.handle_update(args)` on the entity kinds. -/
def handleUpdate (st : VState) (e : Entity) (args : List Arg) :
    Except PyErr (VState × Effects × Option Nat) :=
  match e with
  | .output o => do
      let (st2, w, h) ← outputHandleUpdate st o args
      .ok (st2, { Effects.nil with waiters := w }, h)
  | .button b => buttonHandleUpdate st b args
  | .keypad k => do
      let (k2, h) ← keypadHandleUpdate k args
      .ok ({ st with store := aupdate k.vid (.keypad k2) st.store },
           Effects.nil, h)
  | .var v => do
      let (v2, h) ← variableHandleUpdate v args
      .ok ({ st with store := aupdate v.vid (.var v2) st.store },
           Effects.nil, h)
  | .shade s => do
      let (s2, h) ← shadeHandleUpdate s args
      .ok ({ st with store := aupdate s.vid (.shade s2) st.store },
           Effects.nil, h)
  | .sensor s => do
      let (s2, h) ← sensorHandleUpdate s args
      .ok ({ st with store := aupdate s.vid (.sensor s2) st.store },
           Effects.nil, h)
  | .task t => do
      let (_, h) ← taskHandleUpdate t args
      .ok (st, Effects.nil, h)

/-- `Vantage.handle_update_and_notify` (source lines 854-859): run the
entity's `handle_update`; if it returned an entity that has a
subscriber, deliver the notification. -/
def handleUpdateAndNotify (st : VState) (vid : Nat) (args : List Arg) :
    Except PyErr (VState × Effects) :=
  match alookup vid st.store with
  | none => .ok (st, Effects.nil)
  | some e => do
      let (st2, eff, handled) ← handleUpdate st e args
      let eff2 := { eff with invoked := vid :: eff.invoked }
      match handled with
      | some hv =>
          if hv ∈ st2.subscribers then
            .ok (st2, { eff2 with notified := eff2.notified ++ [hv] })
          else .ok (st2, eff2)
      | none => .ok (st2, eff2)

/-! ### The dispatcher `Vantage._recv` (source lines 777-852) -/

/-- `self._r_cmds` (source lines 678-683). -/
def rCmds : List String :=
  ["LOGIN", "LOAD", "STATUS", "GETLOAD", "VARIABLE", "ERROR",
   "TASK", "GETBLIND", "BLIND", "INVOKE",
   "GETLIGHT", "GETPOWER", "GETCURRENT",
   "GETSENSOR", "ADDSTATUS", "DELSTATUS",
   "GETCUSTOM", "RAMPLOAD", "GETTEMPERATURE"]

/-- `self._s_cmds` (source line 684). -/
def sCmds : List String :=
  ["LOAD", "TASK", "BTN", "VARIABLE", "BLIND", "STATUS"]

/-- The response types acknowledged and dropped for `R` lines
(source lines 811-815). -/
def rAckCmds : List String :=
  ["STATUS", "ADDSTATUS", "DELSTATUS", "INVOKE",
   "GETCUSTOM", "RAMPLOAD", "GETTEMPERATURE"]

/-- The command types whose `GET` prefix is stripped (source line 824). -/
def getCmds : List String :=
  ["GETLOAD", "GETPOWER", "GETCURRENT", "GETSENSOR", "GETLIGHT"]

/-- `cmd_type[3:]`. -/
def dropGet (s : String) : String := (s.toList.drop 3).asString

/-- The canonical command type after GET-stripping. -/
def canonicalOf (ct : String) : String :=
  if ct ∈ getCmds then dropGet ct else ct

/-- The value-bearing canonical response types forwarded to
`handle_update` (source lines 850-851). -/
def valueBearing : List String :=
  ["LOAD", "POWER", "CURRENT", "SENSOR", "LIGHT"]

/-- `re.split(r'[ :]', line[2:])`. -/
def splitLine (line : String) : List String :=
  splitToks (fun c => c = ' ' || c = ':') (line.toList.drop 2)

/-- The body of `Vantage._recv` after classification: `parts` is the
token list of `line[2:]`, `typ` is `"R"` or `"S"`, `cmds` the matching
allow-list.  `parts[0]` is the command type, `parts[1]` the VID
(raising `IndexError` when missing, as `parts[1]` does in Python),
the rest the argument list. -/
def recvParts (st : VState) (typ : String) (cmds : List String)
    (parts : List String) : Except PyErr (VState × Effects) :=
  match parts with
  | [] => .error .indexError
  | [_] => .error .indexError
  | cmd_type :: vid :: args =>
    if cmd_type ∉ cmds then .ok (st, Effects.nil)
    else if cmd_type = "LOGIN" then .ok (st, Effects.nil)
    else if typ = "R" ∧ cmd_type ∈ rAckCmds then .ok (st, Effects.nil)
    else if typ = "R" ∧ cmd_type = "ERROR" then .ok (st, Effects.nil)
    else if cmd_type = "ERROR" then .ok (st, Effects.nil)
    else if cmd_type = "GETBLIND" then .ok (st, Effects.nil)
    else if cmd_type = "TASK" then .ok (st, Effects.nil)
    else
      let ct := canonicalOf cmd_type
      match alookup (some ct) st.ids with
      | none => .ok (st, Effects.nil)
      | some il =>
          if pyIsDigit vid then
            let vidN := strToNat vid
            if vidN ∈ il then
              if typ = "S" ∨ (typ = "R" ∧ ct ∈ valueBearing) then
                handleUpdateAndNotify st vidN (args.map Arg.str)
              else .ok (st, Effects.nil)
            else .ok (st, Effects.nil)
          else .ok (st, Effects.nil)

/-- `Vantage._recv` (source lines 777-852): the dispatch entry point.
An empty line returns immediately; an `R` line pops the oldest pending
command (`popleft`, with an `__UNDERFLOW__` marker — hence no pop —
when the deque is empty) before dispatch; an `S` line dispatches
directly; any other first character is logged and dropped. -/
def recv (st : VState) (line : String) : Except PyErr (VState × Effects) :=
  match line.toList with
  | [] => .ok (st, Effects.nil)
  | c :: _ =>
      if c = 'R' then
        let st2 := { st with cmds := st.cmds.tail }
        recvParts st2 "R" rCmds (splitLine line)
      else if c = 'S' then
        recvParts st "S" sCmds (splitLine line)
      else .ok (st, Effects.nil)

/-! ### `_RequestHelper` (source lines 1037-1081) -/

/-- State of a `_RequestHelper`: the pending `threading.Event` objects
(identified by allocation order) and the next fresh event id. -/
structure RHState where
  pending : List Nat
  next : Nat
  deriving DecidableEq, Repr

/-- The initial `_RequestHelper` state (`self.__events = []`). -/
def rhInit : RHState := ⟨[], 0⟩

/-- `_RequestHelper.request(action)` (source lines 1063-1073): create a
new event, note whether the waiter list was empty, append the event,
and execute `action` exactly when the list was empty.  Returns the new
state, the returned event's id, and whether the trigger ran. -/
def rhRequest (s : RHState) : RHState × Nat × Bool :=
  (⟨s.pending ++ [s.next], s.next + 1⟩, s.next, s.pending.isEmpty)

/-- `_RequestHelper.notify()` (source lines 1075-1081): swap the waiter
list for `[]` and set every event that was in the old list.  Returns
the new state and the released events. -/
def rhNotify (s : RHState) : RHState × List Nat :=
  ({ s with pending := [] }, s.pending)

/-- An operation performed on a `_RequestHelper`. -/
inductive RHOp where
  | request
  | notify
  deriving DecidableEq, Repr

/-- The observable outcome of one `_RequestHelper` operation. -/
inductive RHEv where
  | requested (ev : Nat) (ranTrigger : Bool)
  | notified (released : List Nat)
  deriving DecidableEq, Repr

/-- One step of a `_RequestHelper` interaction. -/
def rhStep (s : RHState) : RHOp → RHState × RHEv
  | .request =>
      let r := rhRequest s
      (r.1, .requested r.2.1 r.2.2)
  | .notify =>
      let r := rhNotify s
      (r.1, .notified r.2)

/-- The state after running a sequence of operations. -/
def rhExec (s : RHState) : List RHOp → RHState
  | [] => s
  | op :: ops => rhExec (rhStep s op).1 ops

/-- The log of outcomes of a sequence of operations. -/
def rhLog (s : RHState) : List RHOp → List RHEv
  | [] => []
  | op :: ops => (rhStep s op).2 :: rhLog (rhStep s op).1 ops

/-- The waiter list after the first `n` operations of a run started
from a fresh `_RequestHelper`. -/
def rhPend (ops : List RHOp) (n : Nat) : List Nat :=
  (rhExec rhInit (ops.take n)).pending

/-! ### `Vantage.register_id` (source lines 722-737, registry part) -/

/-- The `self._ids` registry as mutated by `register_id`:
command-type key (`None` allowed) → VID → registered object id.
Only the two-level dict logic of `register_id` is modelled here; the
name-disambiguation part of the method does not touch `self._ids`. -/
def RegIds := List (Option String × List (Nat × Nat))

/-- `dict.setdefault(key, {})`: returns the (possibly extended)
dict together with the value now stored at `key`. -/
def setdefault (ids : List (Option String × List (Nat × Nat)))
    (k : Option String) :
    List (Option String × List (Nat × Nat)) × List (Nat × Nat) :=
  match alookup k ids with
  | some d => (ids, d)
  | none => (aupdate k [] ids, [])

/-- Write `obj` under `ids[k][vid]`. -/
def regInsert (ids : List (Option String × List (Nat × Nat)))
    (k : Option String) (vid objId : Nat) :
    List (Option String × List (Nat × Nat)) :=
  match alookup k ids with
  | some d => aupdate k (aupdate vid objId d) ids
  | none => aupdate k [(vid, objId)] ids

/-- `Vantage.register_id(cmd_type, cmd_type2, obj)` (source lines
722-737, the `self._ids` logic).  Note the source rebinds `ids` to the
result of the *second* `setdefault`, so the duplicate-VID check is made
against the `cmd_type2` map (the `None`-keyed map when `cmd_type2` is
`None`), after which the object is written under `cmd_type` and — when
`cmd_type2` is truthy — under `cmd_type2`.  Returns `.error ()` where
the source raises `VIDExistsError`. -/
def register_id (ids : List (Option String × List (Nat × Nat)))
    (cmd_type : String) (cmd_type2 : Option String) (vid objId : Nat) :
    Except Unit (List (Option String × List (Nat × Nat))) :=
  let s1 := setdefault ids (some cmd_type)
  let s2 := setdefault s1.1 cmd_type2
  if (alookup vid s2.2).isSome then .error ()
  else
    let ids3 := regInsert s2.1 (some cmd_type) vid objId
    match cmd_type2 with
    | some c2 => if c2 = "" then .ok ids3 else .ok (regInsert ids3 (some c2) vid objId)
    | none => .ok ids3

/-! ### `Vantage.set_variable_vid` (source lines 886-898) -/

/-- A Python value passed to `set_variable_vid` (int or str). -/
inductive PyVal where
  | vint (n : Int)
  | vstr (s : String)
  deriving DecidableEq, Repr

/-- `re.match(r'^\d+$', s)`: anchored at the start by `match`, and `$`
matches at the end of the string or just before one trailing newline. -/
def fullNumMatch (s : String) : Bool :=
  (!s.toList.isEmpty && s.toList.all Char.isDigit) ||
  (s.toList.getLast? = some '\n' &&
    !s.toList.dropLast.isEmpty && s.toList.dropLast.all Char.isDigit)

/-- `re.match(r'["\n\r]', s)`: `re.match` anchors at the start of the
string, so this tests only the *first* character. -/
def quoteNewlineMatch (s : String) : Bool :=
  match s.toList with
  | c :: _ => c = '"' || c = '\n' || c = '\r'
  | [] => false

/-- `Vantage.set_variable_vid(vid, value)` (source lines 886-898):
integers and digit-matching strings are sent bare; otherwise the
value is rejected when `re.match(r'["\n\r]', value)` matches, else
sent wrapped in double quotes.  Returns the sent commands, or
`.error msg` where the source raises. -/
def set_variable_vid (vid : Nat) (value : PyVal) :
    Except String (List String) :=
  match value with
  | .vint n => .ok ["VARIABLE " ++ toString vid ++ " " ++ toString n]
  | .vstr s =>
      if fullNumMatch s then
        .ok ["VARIABLE " ++ toString vid ++ " " ++ s]
      else if quoteNewlineMatch s then
        .error "Newlines and quotes are not allowed in Text values"
      else
        .ok ["VARIABLE " ++ toString vid ++ " \x22" ++ s ++ "\x22"]

/-! ### Further helpers for stating expected post-states -/

/-- A button with its `_value` replaced. -/
def buttonWithValue (b : ButtonState) (a : Arg) : ButtonState :=
  { b with value := some a }

/-- The keypad state produced by `Keypad.handle_update` on the 3-tuple
`[num, name, action]` forwarded by a child button: the *position
number* becomes the value, and `(name, action)` the extra info. -/
def keypadRecord (k : KeypadState) (num : Nat) (name : String) (a : Arg) :
    KeypadState :=
  { k with
    value := some (.int (num : Int))
    extra_info := [("button_name", .str name), ("button_action", a)] }

/-! ### Concrete fixture states used by counterexamples and witnesses -/

/-- A COLOR (color-temperature controller) output, VID 10, whose
color-control VID points at load 99. -/
def exColorCtl : OutputState :=
  { vid := 10, output_type := "COLOR", load_type := "HID", level := 0,
    color_temp := 2700, rgb := [0, 0, 0], color_control_vid := some 99,
    dmx_color := false, ramp_sec := [0, 0, 0] }

/-- The load, VID 99, associated with `exColorCtl`. -/
def exColorLoad : OutputState :=
  { vid := 99, output_type := "LIGHT", load_type := "Incandescent", level := 0,
    color_temp := 2700, rgb := [0, 0, 0], color_control_vid := some 10,
    dmx_color := false, ramp_sec := [0, 0, 0] }

/-- Controller state in which the color controller is registered but no
load is registered under its color-control VID. -/
def exStColorNoLoad : VState :=
  { cmds := [], ids := [(some "LOAD", [10])],
    store := [(10, .output exColorCtl)], vid_to_load := [], subscribers := [10] }

/-- Controller state in which both the color controller and its load
are registered (the load is in `_vid_to_load`). -/
def exStColor : VState :=
  { cmds := [], ids := [(some "LOAD", [10, 99])],
    store := [(10, .output exColorCtl), (99, .output exColorLoad)],
    vid_to_load := [99], subscribers := [99] }

/-- An ordinary (non-COLOR) dimmable light, VID 7, currently at 50%. -/
def exLight : OutputState :=
  { vid := 7, output_type := "LIGHT", load_type := "Incandescent", level := 50,
    color_temp := 2700, rgb := [0, 0, 0], color_control_vid := none,
    dmx_color := false, ramp_sec := [0, 0, 0] }

/-- Controller state with only `exLight` registered under LOAD. -/
def exStLight : VState :=
  { cmds := [], ids := [(some "LOAD", [7])],
    store := [(7, .output exLight)], vid_to_load := [7], subscribers := [7] }

/-- A keypad, VID 20. -/
def exKeypad : KeypadState := { vid := 20, value := none, extra_info := [] }

/-- A button, VID 30, position 3, attached to keypad 20. -/
def exButton : ButtonState :=
  { vid := 30, num := 3, name := "Btn [B]", keypad := some 20, value := none }

/-- A dry contact, VID 31 (no keypad parent). -/
def exDryContact : ButtonState :=
  { vid := 31, num := 0, name := "Door [C]", keypad := none, value := none }

/-- Controller state with the button, dry contact and keypad, where the
keypad and both buttons have subscribers. -/
def exStButton : VState :=
  { cmds := [], ids := [(some "BTN", [30, 31])],
    store := [(30, .button exButton), (31, .button exDryContact),
              (20, .keypad exKeypad)],
    vid_to_load := [], subscribers := [20, 30, 31] }

/-- Controller state with a variable registered at VID 5. -/
def exStVar : VState :=
  { cmds := [], ids := [(some "VARIABLE", [5])],
    store := [(5, .var { vid := 5, value := none })],
    vid_to_load := [], subscribers := [5] }

/-- Controller state with a task registered at VID 7 and subscribed. -/
def exStTask : VState :=
  { cmds := [], ids := [(some "TASK", [7])],
    store := [(7, .task { vid := 7 })],
    vid_to_load := [], subscribers := [7] }

/-- The `_ids` registry after `register_id('LOAD', None, obj)` for an
object with VID 1 (object id 101) starting from an empty registry. -/
def exRegIds1 : List (Option String × List (Nat × Nat)) :=
  [(some "LOAD", [(1, 101)]), (none, [])]

/-- The controller state after delivering the `PRESS` update to
button 30 of `exStButton`: the button's value is the action, while
keypad 20 holds the button's *position number* as its value. -/
def exStButtonAfter : VState :=
  { cmds := [], ids := [(some "BTN", [30, 31])],
    store := [(30, .button (buttonWithValue exButton (.str "PRESS"))),
              (31, .button exDryContact),
              (20, .keypad (keypadRecord exKeypad 3 "Btn [B]" (.str "PRESS")))],
    vid_to_load := [], subscribers := [20, 30, 31] }

/-! ## Shared lemmas -/

/-- The source's `level_to_kelvin` computes exactly the spec's formula
`2200 + L/100*(6000-2200)` clamped to `[2200, 6000]`. -/
theorem level_to_kelvin_eq_clamp (L : ℚ) :
    level_to_kelvin L = clampQ 2200 6000 (2200 + L / 100 * (6000 - 2200)) := by
  have hx : 2200 + L / 100 * (6000 - 2200) = 2200 + 38 * L := by ring
  unfold level_to_kelvin clampQ
  rw [hx]
  rcases lt_or_le L 0 with h | h
  · rw [if_pos h]
    rw [min_eq_right (by linarith : 2200 + 38 * L ≤ 6000),
        max_eq_left (by linarith : 2200 + 38 * L ≤ 2200)]
  · rw [if_neg (not_lt.mpr h)]
    rcases lt_or_le (100 : ℚ) L with h2 | h2
    · rw [if_pos h2, min_eq_left (by linarith : (6000 : ℚ) ≤ 2200 + 38 * L),
          max_eq_right (by norm_num : (2200 : ℚ) ≤ 6000)]
    · rw [if_neg (not_lt.mpr h2),
          min_eq_right (by linarith : 2200 + 38 * L ≤ 6000),
          max_eq_right (by linarith : (2200 : ℚ) ≤ 2200 + 38 * L)]
      ring

/-- Evaluation of the token `"50"` under the `float(...)` model. -/
theorem argFloat_str50 : argFloat (Arg.str "50") = some 50 := by
  have h : argFloat (Arg.str "50") = some (1 * ((50 : ℕ) : ℚ)) := rfl
  rw [h]; norm_num

/-- Evaluation of the token `"150"` under the `float(...)` model. -/
theorem argFloat_str150 : argFloat (Arg.str "150") = some 150 := by
  have h : argFloat (Arg.str "150") = some (1 * ((150 : ℕ) : ℚ)) := rfl
  rw [h]; norm_num

/-- Lookups are unaffected by updates at a different key. -/
theorem alookup_aupdate_ne {α β : Type} [DecidableEq α] {k1 k2 : α}
    (v : β) (l : List (α × β)) (h : k1 ≠ k2) :
    alookup k1 (aupdate k2 v l) = alookup k1 l := by
  induction l with
  | nil => simp [aupdate, alookup, h]
  | cons p rest ih =>
      obtain ⟨k3, v3⟩ := p
      by_cases h2 : k2 = k3
      · subst h2
        simp [aupdate, alookup, h]
      · simp [aupdate, alookup, h2]
        by_cases h3 : k1 = k3
        · simp [h3]
        · simp [h3, ih]

/-! ## C1: COLOR output update redirection -/

/-- C1 counterexample: delivering the level-50 update to the COLOR
controller (VID 10) when *no load is registered* under its
color-control VID returns the controller entity itself, with no
mutation and no waiting set released — the claim asserts the load is
always the returned entity, "including when no associated load is
registered". -/
theorem color_update_no_load_returns_controller :
    outputHandleUpdate exStColorNoLoad exColorCtl [Arg.str "50"] =
      .ok (exStColorNoLoad, [], some exColorCtl.vid) := rfl

/-- C1 (amended): for a COLOR output receiving a single-argument update
with level `L`, *when a load is registered* under the controller's
color-control VID the update mutates that load's color temperature to
`2200 + L/100*(6000-2200)` clamped to `[2200, 6000]`, releases that
load's waiting set, and returns the load; when no such load is found
the controller state is unchanged and the *controller entity itself*
is returned. -/
theorem color_update_redirects_to_registered_load
    (st : VState) (o : OutputState) (a : Arg) (L : ℚ)
    (hC : o.output_type = "COLOR") (hA : argFloat a = some L) :
    (∀ ccv lo, lightLookup st o.color_control_vid = some (ccv, lo) →
      outputHandleUpdate st o [a] =
        .ok (withStore st (aupdate ccv (.output (withColorTemp lo
               (clampQ 2200 6000 (2200 + L / 100 * (6000 - 2200))))) st.store),
             [ccv], some ccv))
    ∧ (lightLookup st o.color_control_vid = none →
      outputHandleUpdate st o [a] = .ok (st, [], some o.vid)) := by
  constructor
  · intro ccv lo hL
    simp [outputHandleUpdate, pyFloatE, hA, hC, hL, level_to_kelvin_eq_clamp,
          withStore, withColorTemp, Except.bind, Bind.bind]
  · intro hL
    simp [outputHandleUpdate, pyFloatE, hA, hC, hL, Except.bind, Bind.bind]

/-- C1 witness: the amended theorem applied to the fixture in which
load 99 is registered for controller 10, at level 50. -/
theorem color_update_redirects_to_registered_load_witness :
    outputHandleUpdate exStColor exColorCtl [Arg.str "50"] =
      .ok (withStore exStColor (aupdate 99 (.output (withColorTemp exColorLoad
             (clampQ 2200 6000 (2200 + (50 : ℚ) / 100 * (6000 - 2200)))))
             exStColor.store),
           [99], some 99) :=
  (color_update_redirects_to_registered_load exStColor exColorCtl
    (Arg.str "50") 50 rfl argFloat_str50).1 99 exColorLoad rfl

/-! ## C2: `_RequestHelper` round discipline -/

/-- Each log entry of a `_RequestHelper` run is the outcome of the
operation at the same index, applied to the state reached by the
preceding operations. -/
theorem rhLog_get (ops : List RHOp) :
    ∀ (s : RHState) (i : Nat) (ev : RHEv),
      (rhLog s ops).get? i = some ev →
      ∃ op, ops.get? i = some op ∧ ev = (rhStep (rhExec s (ops.take i)) op).2 := by
  induction ops with
  | nil => intro s i ev h; simp [rhLog] at h
  | cons op rest ih =>
      intro s i ev h
      cases i with
      | zero =>
          refine ⟨op, rfl, ?_⟩
          simp [rhLog] at h
          simp [rhExec, h]
      | succ i =>
          simp only [rhLog, List.get?] at h
          obtain ⟨op2, h1, h2⟩ := ih (rhStep s op).1 i ev h
          refine ⟨op2, by simpa using h1, ?_⟩
          simpa [rhExec] using h2

/-- Unrolling the state of a `_RequestHelper` run by one operation. -/
theorem rhExec_take_succ (ops : List RHOp) :
    ∀ (s : RHState) (i : Nat) (op : RHOp), ops.get? i = some op →
      rhExec s (ops.take (i+1)) = (rhStep (rhExec s (ops.take i)) op).1 := by
  induction ops with
  | nil => intro s i op h; simp at h
  | cons o rest ih =>
      intro s i op h
      cases i with
      | zero => simp at h; subst h; simp [rhExec]
      | succ i =>
          simp only [List.get?] at h
          simp [rhExec, ih (rhStep s o).1 i op h]

/-- The waiter list only ever becomes empty through a `notify`: if it
is nonempty at time `a` and empty at time `b`, some `notify` occurred
in between. -/
theorem rhPend_notify_between (ops : List RHOp) :
    ∀ (a b : Nat), a ≤ b → rhPend ops a ≠ [] → rhPend ops b = [] →
      ∃ k, a ≤ k ∧ k < b ∧ ops.get? k = some .notify := by
  intro a b
  induction b with
  | zero =>
      intro hab ha hb
      interval_cases a
      exact absurd hb ha
  | succ b ih =>
      intro hab ha hb
      have hane : a ≠ b + 1 := by rintro rfl; exact ha hb
      have hab2 : a ≤ b := Nat.lt_succ_iff.mp (lt_of_le_of_ne hab hane)
      cases hop : ops.get? b with
      | none =>
          have hlen : ops.length ≤ b := List.get?_eq_none.mp hop
          have heq : rhPend ops (b+1) = rhPend ops b := by
            unfold rhPend
            rw [List.take_of_length_le hlen,
                List.take_of_length_le (Nat.le_succ_of_le hlen)]
          obtain ⟨k, h1, h2, h3⟩ := ih hab2 ha (heq ▸ hb)
          exact ⟨k, h1, Nat.lt_succ_of_lt h2, h3⟩
      | some op =>
          have hstep : rhPend ops (b+1) =
              ((rhStep (rhExec rhInit (ops.take b)) op).1).pending := by
            unfold rhPend
            rw [rhExec_take_succ ops rhInit b op hop]
          cases op with
          | request =>
              exfalso
              rw [hstep] at hb
              simp [rhStep, rhRequest] at hb
          | notify =>
              by_cases hpb : rhPend ops b = []
              · obtain ⟨k, h1, h2, h3⟩ := ih hab2 ha hpb
                exact ⟨k, h1, Nat.lt_succ_of_lt h2, h3⟩
              · exact ⟨b, hab2, Nat.lt_succ_self b, hop⟩

/-- C2: in every interleaving of `request` and `notify` on one
`_RequestHelper`: a `request` runs the trigger exactly when the waiter
set was empty at the time of the call; `notify` releases exactly the
events of the old waiter set and leaves the set empty (so between any
two trigger runs there is a `notify`, i.e. the trigger runs at most
once while the set is non-empty); and a `request` arriving right after
a `notify` begins a new round and runs the trigger again. -/
theorem request_helper_round_discipline (ops : List RHOp) :
    (∀ i e b, (rhLog rhInit ops).get? i = some (.requested e b) →
       (b = true ↔ rhPend ops i = []))
    ∧ (∀ i rel, (rhLog rhInit ops).get? i = some (.notified rel) →
       rel = rhPend ops i ∧ rhPend ops (i+1) = [])
    ∧ (∀ i j e e2, i < j →
       (rhLog rhInit ops).get? i = some (.requested e true) →
       (rhLog rhInit ops).get? j = some (.requested e2 true) →
       ∃ k, i < k ∧ k < j ∧ ops.get? k = some .notify)
    ∧ (∀ i e b, ops.get? i = some .notify →
       (rhLog rhInit ops).get? (i+1) = some (.requested e b) → b = true) := by
  have hreq : ∀ i e b, (rhLog rhInit ops).get? i = some (.requested e b) →
      ops.get? i = some .request ∧
        b = (rhExec rhInit (ops.take i)).pending.isEmpty := by
    intro i e b h
    obtain ⟨op, hop, hev⟩ := rhLog_get ops rhInit i _ h
    cases op with
    | request =>
        refine ⟨hop, ?_⟩
        simp [rhStep, rhRequest] at hev
        exact hev.2
    | notify => simp [rhStep, rhNotify] at hev
  refine ⟨?_, ?_, ?_, ?_⟩
  · intro i e b h
    obtain ⟨-, hb⟩ := hreq i e b h
    rw [hb]
    exact List.isEmpty_iff
  · intro i rel h
    obtain ⟨op, hop, hev⟩ := rhLog_get ops rhInit i _ h
    cases op with
    | request => simp [rhStep, rhRequest] at hev
    | notify =>
        simp [rhStep, rhNotify] at hev
        refine ⟨hev, ?_⟩
        unfold rhPend
        rw [rhExec_take_succ ops rhInit i _ hop]
        simp [rhStep, rhNotify]
  · intro i j e e2 hij hi hj
    obtain ⟨hopi, hbi⟩ := hreq i e true hi
    obtain ⟨hopj, hbj⟩ := hreq j e2 true hj
    have hpj : rhPend ops j = [] := List.isEmpty_iff.mp hbj.symm
    have hne : rhPend ops (i+1) ≠ [] := by
      unfold rhPend
      rw [rhExec_take_succ ops rhInit i _ hopi]
      simp [rhStep, rhRequest]
    obtain ⟨k, h1, h2, h3⟩ := rhPend_notify_between ops (i+1) j hij hne hpj
    exact ⟨k, h1, h2, h3⟩
  · intro i e b hop h
    obtain ⟨-, hb⟩ := hreq (i+1) e b h
    have hemp : rhPend ops (i+1) = [] := by
      unfold rhPend
      rw [rhExec_take_succ ops rhInit i _ hop]
      simp [rhStep, rhNotify]
    unfold rhPend at hemp
    rw [hb, hemp]
    rfl

/-- C2 witness: the round-discipline theorem applied to the run
`request; request; notify; request` — the first request finds the set
empty (trigger runs), and the trigger run of the request at index 3
forces a `notify` strictly between indices 0 and 3. -/
theorem request_helper_round_discipline_witness :
    ((true = true) ↔
      rhPend [RHOp.request, RHOp.request, RHOp.notify, RHOp.request] 0 = [])
    ∧ (∃ k, 0 < k ∧ k < 3 ∧
        [RHOp.request, RHOp.request, RHOp.notify,
          RHOp.request].get? k = some RHOp.notify) :=
  ⟨(request_helper_round_discipline
      [RHOp.request, RHOp.request, RHOp.notify, RHOp.request]).1 0 0 true rfl,
   (request_helper_round_discipline
      [RHOp.request, RHOp.request, RHOp.notify, RHOp.request]).2.2.1 0 3 0 2
      (by decide) rfl rfl⟩

/-! ## C3: button/keypad redirection -/

/-- C3 counterexample: delivering `PRESS` to button 30 (child of
keypad 20) makes the keypad store the button's *position number*
(`Arg.int 3`), not the action, as its value; and the notified entities
are `[20, 30]` — the keypad *and* the button (whose `handle_update`
returns `self`) — not the keypad alone, contradicting the claim that
the action becomes the keypad's value and that the keypad, not the
button, is the notified entity. -/
theorem button_press_stores_position_not_action :
    handleUpdateAndNotify exStButton 30 [Arg.str "PRESS"] =
      .ok (exStButtonAfter, ⟨[30, 20], [20, 30], []⟩)
    ∧ (keypadRecord exKeypad 3 "Btn [B]" (.str "PRESS")).value ≠
        some (Arg.str "PRESS")
    ∧ ([20, 30] : List Nat) ≠ [20] :=
  ⟨rfl, by decide, by decide⟩

/-- C3 (amended): a button with a keypad parent stores the action as
its own value and redirects the update to the keypad, which stores the
button's *position number* as its value and records
`(button name, action)` as its extra-info; the keypad's subscriber is
notified and the button is additionally returned as the handled
entity, so the button's subscriber is notified as well.  A dry contact
(no keypad parent) does not redirect and stores
`PRESS`→`Violated`, `RELEASE`→`Normal`, any other action unchanged. -/
theorem button_update_redirection_behaviour
    (st : VState) (b : ButtonState) (k : KeypadState) (a : Arg)
    (hb : alookup b.vid st.store = some (.button b))
    (hbk : b.keypad = some k.vid)
    (hne : k.vid ≠ b.vid)
    (hk : alookup k.vid st.store = some (.keypad k)) :
    (handleUpdateAndNotify st b.vid [a] =
      .ok (withStore st (aupdate k.vid (.keypad (keypadRecord k b.num b.name a))
             (aupdate b.vid (.button (buttonWithValue b a)) st.store)),
           ⟨[b.vid, k.vid],
            (if k.vid ∈ st.subscribers then [k.vid] else []) ++
              (if b.vid ∈ st.subscribers then [b.vid] else []), []⟩))
    ∧ (∀ bd : ButtonState, alookup bd.vid st.store = some (.button bd) →
        bd.keypad = none →
        handleUpdateAndNotify st bd.vid [a] =
          .ok (withStore st (aupdate bd.vid
                 (.button (buttonWithValue bd (dryContactValue a))) st.store),
               ⟨[bd.vid], if bd.vid ∈ st.subscribers then [bd.vid] else [],
                []⟩)) := by
  constructor
  · have hk2 : ∀ x : Entity, alookup k.vid (aupdate b.vid x st.store) =
        some (.keypad k) := fun x => by
      rw [alookup_aupdate_ne _ _ hne]; exact hk
    simp [handleUpdateAndNotify, hb, handleUpdate, buttonHandleUpdate, pyIndex,
          hbk, notifyKeypad, hk2, keypadHandleUpdate, buttonWithValue,
          keypadRecord, withStore, Effects.nil, Except.bind, Bind.bind]
    split_ifs <;> simp_all
  · intro bd hbd hdk
    simp [handleUpdateAndNotify, hbd, handleUpdate, buttonHandleUpdate, pyIndex,
          hdk, buttonWithValue, withStore, Effects.nil, Except.bind, Bind.bind]
    split_ifs <;> simp_all

/-- C3 witness: the amended theorem applied to the `RELEASE` action on
button 30 (keypad parent 20) and on dry contact 31 of the fixture. -/
theorem button_update_redirection_behaviour_witness :
    (handleUpdateAndNotify exStButton 30 [Arg.str "RELEASE"] =
      .ok (withStore exStButton
             (aupdate 20 (.keypad (keypadRecord exKeypad 3 "Btn [B]"
                (.str "RELEASE")))
               (aupdate 30 (.button (buttonWithValue exButton (.str "RELEASE")))
                 exStButton.store)),
           ⟨[30, 20],
            (if 20 ∈ exStButton.subscribers then [20] else []) ++
              (if 30 ∈ exStButton.subscribers then [30] else []), []⟩))
    ∧ (handleUpdateAndNotify exStButton 31 [Arg.str "RELEASE"] =
      .ok (withStore exStButton
             (aupdate 31 (.button (buttonWithValue exDryContact
                (dryContactValue (.str "RELEASE")))) exStButton.store),
           ⟨[31], if 31 ∈ exStButton.subscribers then [31] else [], []⟩)) :=
  ⟨(button_update_redirection_behaviour exStButton exButton exKeypad
      (.str "RELEASE") rfl rfl (by decide) rfl).1,
   (button_update_redirection_behaviour exStButton exButton exKeypad
      (.str "RELEASE") rfl rfl (by decide) rfl).2 exDryContact rfl rfl⟩

/-! ## C4: which lines are forwarded to `handle_update` -/

/-- Evaluation of GET-stripping on `GETLOAD`. -/
theorem canonicalOf_GETLOAD : canonicalOf "GETLOAD" = "LOAD" := rfl

/-- Evaluation of GET-stripping on `GETPOWER`. -/
theorem canonicalOf_GETPOWER : canonicalOf "GETPOWER" = "POWER" := rfl

/-- Evaluation of GET-stripping on `GETCURRENT`. -/
theorem canonicalOf_GETCURRENT : canonicalOf "GETCURRENT" = "CURRENT" := rfl

/-- Evaluation of GET-stripping on `GETSENSOR`. -/
theorem canonicalOf_GETSENSOR : canonicalOf "GETSENSOR" = "SENSOR" := rfl

/-- Evaluation of GET-stripping on `GETLIGHT`. -/
theorem canonicalOf_GETLIGHT : canonicalOf "GETLIGHT" = "LIGHT" := rfl

/-- C4 counterexample: the status line `S:TASK 7 1 2` has a recognized
command type (`TASK` is in the `S` allow-list) and a registered,
subscribed numeric VID, yet the dispatcher drops it at the
`elif cmd_type == 'TASK'` early return: no `handle_update` is invoked
(`invoked = []`), no state changes and nothing is notified —
contradicting the claim that every accepted `S` status line reaches
the entity's transition function. -/
theorem status_task_line_not_forwarded :
    recv exStTask "S:TASK 7 1 2" = .ok (exStTask, Effects.nil)
    ∧ Effects.nil.invoked = [] :=
  ⟨rfl, rfl⟩

/-- C4 (amended): for a line whose command type is in the matching
allow-list and whose VID token is numeric and registered under the
canonical (GET-stripped) type, the dispatcher forwards to the
entity's transition function exactly when the line is an `S` status
line *other than `TASK`* (which is dropped by an early return), or an
`R` response whose canonical type is LOAD, POWER, CURRENT, SENSOR or
LIGHT; in every other case the state is returned unchanged with no
invocation and no notification. -/
theorem recv_forwards_exactly_value_bearing
    (st : VState) (typ : String) (cmds : List String)
    (ct vidS : String) (args : List String) (il : List Nat)
    (hT : (typ = "R" ∧ cmds = rCmds) ∨ (typ = "S" ∧ cmds = sCmds))
    (hct : ct ∈ cmds)
    (hdig : pyIsDigit vidS = true)
    (hids : alookup (some (canonicalOf ct)) st.ids = some il)
    (hmem : strToNat vidS ∈ il) :
    (((typ = "S" ∧ ct ≠ "TASK") ∨ (typ = "R" ∧ canonicalOf ct ∈ valueBearing)) →
      recvParts st typ cmds (ct :: vidS :: args) =
        handleUpdateAndNotify st (strToNat vidS) (args.map Arg.str))
    ∧ (¬ ((typ = "S" ∧ ct ≠ "TASK") ∨
          (typ = "R" ∧ canonicalOf ct ∈ valueBearing)) →
      recvParts st typ cmds (ct :: vidS :: args) = .ok (st, Effects.nil)) := by
  rcases hT with ⟨hTyp, hCmds⟩ | ⟨hTyp, hCmds⟩ <;> subst hTyp <;> subst hCmds <;>
    fin_cases hct <;>
    constructor <;> intro h <;>
    simp_all [recvParts, canonicalOf, getCmds, rAckCmds, valueBearing, rCmds,
              sCmds, canonicalOf_GETLOAD, canonicalOf_GETPOWER,
              canonicalOf_GETCURRENT, canonicalOf_GETSENSOR,
              canonicalOf_GETLIGHT, dropGet, hids, hdig, hmem]

/-- C4 witness: the amended theorem applied to the response
`R:GETLOAD 7 45.5` (canonical type LOAD, value-bearing, forwarded) and
to the response `R:VARIABLE 5 3` (registered but not value-bearing,
dropped with no effect). -/
theorem recv_forwards_exactly_value_bearing_witness :
    (recvParts exStLight "R" rCmds ["GETLOAD", "7", "45.5"] =
      handleUpdateAndNotify exStLight 7 [Arg.str "45.5"])
    ∧ (recvParts exStVar "R" rCmds ["VARIABLE", "5", "3"] =
      .ok (exStVar, Effects.nil)) :=
  ⟨(recv_forwards_exactly_value_bearing exStLight "R" rCmds "GETLOAD" "7"
      ["45.5"] [7] (Or.inl ⟨rfl, rfl⟩) (by decide) (by decide) rfl
      (by decide)).1 (Or.inr ⟨rfl, by decide⟩),
   (recv_forwards_exactly_value_bearing exStVar "R" rCmds "VARIABLE" "5"
      ["3"] [5] (Or.inl ⟨rfl, rfl⟩) (by decide) (by decide) rfl
      (by decide)).2 (by decide)⟩

/-! ## C5: duplicate-VID registration -/

/-- C5: evaluating `register_id` at the failing input.  Registering VID
1 under `LOAD` (with `cmd_type2 = None`) and then registering a second
object with the *same* VID under the *same* command type does **not**
raise `VIDExistsError`: it succeeds and silently overwrites the first
registration, because the source rebinds `ids` to the second
`setdefault` (the `None`-keyed map, which always stays empty) before
the duplicate check.  Registering the same VID under a different
command type also succeeds. -/
theorem register_id_duplicate_vid_not_rejected :
    register_id [] "LOAD" none 1 101 = .ok exRegIds1
    ∧ register_id exRegIds1 "LOAD" none 1 102 =
        .ok [(some "LOAD", [(1, 102)]), (none, [])]
    ∧ register_id exRegIds1 "KEYPAD" none 1 103 =
        .ok [(some "LOAD", [(1, 101)]), (none, []),
             (some "KEYPAD", [(1, 103)])] :=
  ⟨rfl, rfl, rfl⟩

/-! ## C6: exception propagation out of `_recv` -/

/-- C6: evaluating the dispatcher at the failing input.  The status
line `S:VARIABLE 5 abc` for the registered variable VID 5 makes
`Variable.handle_update` evaluate `float("abc")`, whose `ValueError`
propagates out of `_recv` instead of being logged and dropped. -/
theorem recv_propagates_value_error :
    recv exStVar "S:VARIABLE 5 abc" = .error .valueError := rfl

/-! ## C7: the 0-100 level invariant -/

/-- C7 counterexample: a single-numeric-argument update with value 150
delivered to a non-COLOR output whose level was 50 (in range) stores
level 150 unclamped, violating the claimed 0-100 invariant. -/
theorem output_level_exceeds_100_after_update :
    outputHandleUpdate exStLight exLight [Arg.str "150"] =
      .ok (withStore exStLight
            (aupdate 7 (.output (withLevel exLight 150)) exStLight.store),
           [7], some 7)
    ∧ ¬ ((withLevel exLight 150).level ≤ 100) := by
  constructor
  · simp [outputHandleUpdate, pyFloatE, argFloat_str150, exLight,
          withStore, withLevel, Except.bind, Bind.bind]
  · simp [withLevel]
    norm_num

/-- C7 (amended): a single-numeric-argument update stores the parsed
value as the level *unclamped* (and the level setter likewise stores
the requested value), so the cached level lies in `[0, 100]` exactly
when the delivered value does; the 0-100 invariant holds provided the
incoming value is itself in range. -/
theorem output_level_equals_delivered_value
    (st : VState) (o : OutputState) (a : Arg) (L : ℚ)
    (hC : ¬ o.output_type = "COLOR") (hA : argFloat a = some L) :
    outputHandleUpdate st o [a] =
      .ok (withStore st (aupdate o.vid (.output (withLevel o L)) st.store),
           [o.vid], some o.vid)
    ∧ (0 ≤ L → L ≤ 100 →
        0 ≤ (withLevel o L).level ∧ (withLevel o L).level ≤ 100)
    ∧ (∀ nl : ℚ, 0 ≤ nl → nl ≤ 100 →
        0 ≤ (outputSetLevel o nl).1.level ∧ (outputSetLevel o nl).1.level ≤ 100) := by
  refine ⟨?_, ?_, ?_⟩
  · simp [outputHandleUpdate, pyFloatE, hA, hC, withStore, withLevel,
          Except.bind, Bind.bind]
  · intro h1 h2
    exact ⟨h1, h2⟩
  · intro nl h1 h2
    by_cases hEq : o.level = nl
    · have hv : (outputSetLevel o nl).1.level = o.level := by
        simp [outputSetLevel, hEq]
      rw [hv, hEq]; exact ⟨h1, h2⟩
    · have hv : (outputSetLevel o nl).1.level = nl := by
        simp [outputSetLevel, hEq]
      rw [hv]; exact ⟨h1, h2⟩

/-- C7 witness: the amended theorem applied to the level-50 update of
the fixture light, and to its level setter at 60. -/
theorem output_level_equals_delivered_value_witness :
    (outputHandleUpdate exStLight exLight [Arg.str "50"] =
      .ok (withStore exStLight
            (aupdate exLight.vid (.output (withLevel exLight 50)) exStLight.store),
           [exLight.vid], some exLight.vid))
    ∧ (0 ≤ (outputSetLevel exLight 60).1.level
        ∧ (outputSetLevel exLight 60).1.level ≤ 100) :=
  ⟨(output_level_equals_delivered_value exStLight exLight (Arg.str "50") 50
      (by decide) argFloat_str50).1,
   (output_level_equals_delivered_value exStLight exLight (Arg.str "50") 50
      (by decide) argFloat_str50).2.2 60 (by norm_num) (by norm_num)⟩

/-! ## C8: variable text validation -/

/-- C8: evaluating `set_variable_vid` at the failing input.  The value
`a"b` contains a double quote, yet the call does *not* raise: the
source's `re.match(r'["\n\r]', value)` anchors at the start of the
string, so only a *leading* quote/newline is rejected and the command
is sent with the embedded quote; values with a leading quote are
rejected, and in-range numeric/clean values are sent as one command. -/
theorem set_variable_embedded_quote_not_rejected :
    set_variable_vid 1 (.vstr "a\x22b") =
      .ok ["VARIABLE " ++ toString (1 : ℕ) ++ " \x22" ++ "a\x22b" ++ "\x22"]
    ∧ set_variable_vid 1 (.vstr "\x22ab") =
      .error "Newlines and quotes are not allowed in Text values"
    ∧ set_variable_vid 1 (.vstr "42") =
      .ok ["VARIABLE " ++ toString (1 : ℕ) ++ " " ++ "42"] :=
  ⟨rfl, rfl, rfl⟩

/-! ## C9: kelvin/level round trip -/

/-- C9: over exact rational arithmetic,
`level_to_kelvin (kelvin_to_level k) = k` for every `k ∈ [2200, 6000]`;
`kelvin_to_level` returns 0 below 2200 and 100 above 6000, and always
returns a value in `[0, 100]`. -/
theorem kelvin_level_roundtrip_and_clamp (k : ℚ) :
    (2200 ≤ k → k ≤ 6000 → level_to_kelvin (kelvin_to_level k) = k)
    ∧ (k < 2200 → kelvin_to_level k = 0)
    ∧ (k > 6000 → kelvin_to_level k = 100)
    ∧ (0 ≤ kelvin_to_level k ∧ kelvin_to_level k ≤ 100) := by
  have h38 : (0 : ℚ) < 38 := by norm_num
  refine ⟨?_, ?_, ?_, ?_⟩
  · intro h1 h2
    unfold kelvin_to_level
    rw [if_neg (not_lt.mpr h1), if_neg (not_lt.mpr h2)]
    have hl : (k - 2200) / (6000 - 2200) * 100 = (k - 2200) / 38 := by ring
    rw [hl]
    unfold level_to_kelvin
    rw [if_neg (not_lt.mpr (div_nonneg (by linarith) (by norm_num))),
        if_neg (not_lt.mpr (by rw [div_le_iff₀ h38]; linarith))]
    field_simp
    ring
  · intro h; unfold kelvin_to_level; rw [if_pos h]
  · intro h
    unfold kelvin_to_level
    rw [if_neg (not_lt.mpr (by linarith)), if_pos h]
  · unfold kelvin_to_level
    rcases lt_or_le k 2200 with h | h
    · rw [if_pos h]; norm_num
    · rw [if_neg (not_lt.mpr h)]
      rcases lt_or_le (6000 : ℚ) k with h2 | h2
      · rw [if_pos h2]; norm_num
      · rw [if_neg (not_lt.mpr h2)]
        have hl : (k - 2200) / (6000 - 2200) * 100 = (k - 2200) / 38 := by ring
        rw [hl]
        constructor
        · exact div_nonneg (by linarith) (by norm_num)
        · rw [div_le_iff₀ h38]; linarith

/-- C9 witness: the round trip at `k = 4100`. -/
theorem kelvin_level_roundtrip_and_clamp_witness :
    (2200 : ℚ) ≤ 4100 ∧ (4100 : ℚ) ≤ 6000 ∧
    level_to_kelvin (kelvin_to_level 4100) = 4100 :=
  ⟨by norm_num, by norm_num,
   (kelvin_level_roundtrip_and_clamp 4100).1 (by norm_num) (by norm_num)⟩

/-! ## C10: the empty line -/

/-- C10: for the empty input line, `_recv` returns immediately with no
effect at all: no pending-command pop, no entity mutation, no
notification, and no exception. -/
theorem recv_empty_line_noop (st : VState) :
    recv st "" = .ok (st, Effects.nil) := rfl

end Pyvantage
